/-
Verification of the membership-card issuance and lifecycle engine
(`civictech-vpass`), via a shallow embedding of its Rust sources.

Conventions of the embedding:
* Database tables are in-memory lists of rows; each SQL statement becomes a
  pure function on the list, and a whole transaction becomes one atomic
  function application.
* Timestamps are integer seconds since the epoch (`chrono` instants); the
  SQL/`chrono` value `NOW()` is threaded in explicitly as a `now` argument.
* Byte strings are `List Nat` (each element a byte value), text is
  `List Char` where character-level reasoning is needed and `String`
  otherwise.
* Rust `i32`/`i64` counters are `Int`; no operation here approaches the
  machine-width bounds, so wrap-around is not modelled.
-/
import Mathlib

set_option maxRecDepth 10000


/-- One day of `chrono::Duration::days`, in seconds. -/
def Duration.days (d : Int) : Int := d * 86400

/-- Model of `CardStatus` from `src/models/card.rs` (the SQL enum `card_status`). -/
inductive CardStatus where
  | active
  | expired
  | revoked
  | suspended
  | deleted
deriving DecidableEq, Repr, Inhabited

/-- The audit snapshot built by `issue_card` (`src/services/card_issuer.rs`,
step 6). The Rust code stores it as a `serde_json` document; the embedding
keeps the same fields as a record. -/
structure Snapshot where
  comment_id : String
  comment_text : String
  comment_published_at : Int
  author_channel_id : String
  author_display_name : String
  verification_video_id : String
  verified_at : Int
  session_started_at : Int
deriving DecidableEq, Repr, Inhabited

/-- Model of `MembershipCard` from `src/models/card.rs`. -/
structure MembershipCard where
  id : Nat
  issuer_id : Nat
  member_id : Nat
  membership_level_label : String
  membership_confirmed_at : Int
  verification_comment_id : String
  verification_video_id : String
  snapshot_json : Snapshot
  status : CardStatus
  expires_at : Option Int
  last_verified_at : Option Int
  verification_failures : Int
  deleted_at : Option Int
  issued_at : Int
  wallet_transaction_id : Option String
  wallet_qr_code : Option String
  wallet_deep_link : Option String
  wallet_cid : Option String
  wallet_scanned_at : Option Int
deriving DecidableEq, Repr, Inhabited

/-- Model of `CreateCardData` from `src/models/card.rs`. -/
structure CreateCardData where
  issuer_id : Nat
  member_id : Nat
  membership_level_label : String
  membership_confirmed_at : Int
  verification_comment_id : String
  verification_video_id : String
  snapshot_json : Snapshot
deriving DecidableEq, Repr, Inhabited

/-- The `membership_cards` table. -/
abbrev CardStore := List MembershipCard

/-- Model of `MembershipCard::create` (`src/models/card.rs` lines 57-106).
One atomic transaction: first the UPDATE marks every card of the
`(issuer_id, member_id)` pair whose status is not `'deleted'` as
`'deleted'` (recording `deleted_at = NOW()`), then the INSERT adds the new
card with status `'active'`, `expires_at = NOW() + 30 days` and
`verification_failures = 0`. Returns the updated table and the new row. -/
def MembershipCard.create (store : CardStore) (data : CreateCardData)
    (now : Int) (new_id : Nat) : CardStore × MembershipCard :=
  let superseded := store.map (fun c =>
    if c.issuer_id = data.issuer_id ∧ c.member_id = data.member_id ∧
        c.status ≠ CardStatus.deleted
    then { c with status := CardStatus.deleted, deleted_at := some now }
    else c)
  let card : MembershipCard :=
    { id := new_id
      issuer_id := data.issuer_id
      member_id := data.member_id
      membership_level_label := data.membership_level_label
      membership_confirmed_at := data.membership_confirmed_at
      verification_comment_id := data.verification_comment_id
      verification_video_id := data.verification_video_id
      snapshot_json := data.snapshot_json
      status := CardStatus.active
      expires_at := some (now + Duration.days 30)
      last_verified_at := none
      verification_failures := 0
      deleted_at := none
      issued_at := now
      wallet_transaction_id := none
      wallet_qr_code := none
      wallet_deep_link := none
      wallet_cid := none
      wallet_scanned_at := none }
  (superseded ++ [card], card)

/-- Model of `MembershipCard::is_expired` (`src/models/card.rs`). -/
def MembershipCard.is_expired (c : MembershipCard) (now : Int) : Bool :=
  match c.expires_at with
  | some expiration => expiration < now
  | none => false

/-- Model of `MembershipCard::set_status` (`src/models/card.rs` lines 211-229):
`UPDATE membership_cards SET status = $2 WHERE id = $1`, with no condition
on the current status. -/
def MembershipCard.set_status (store : CardStore) (id : Nat)
    (status : CardStatus) : CardStore :=
  store.map (fun c => if c.id = id then { c with status := status } else c)

/-- Model of `MembershipCard::extend_expiration` (`src/models/card.rs` lines
248-268): sets `expires_at = NOW() + days`, `last_verified_at = NOW()` and
`verification_failures = 0` on the row with the given id, with no
condition on the current status. -/
def MembershipCard.extend_expiration (store : CardStore) (id : Nat)
    (days : Int) (now : Int) : CardStore :=
  store.map (fun c =>
    if c.id = id then
      { c with expires_at := some (now + Duration.days days)
               last_verified_at := some now
               verification_failures := 0 }
    else c)

/-- Model of `MembershipCard::increment_verification_failure` (`src/models/card.rs`
lines 271-289): adds 1 to `verification_failures`, sets
`last_verified_at = NOW()`, and returns the new count (`RETURNING`);
`fetch_one` fails when no row matches, hence the `Option`. -/
def MembershipCard.increment_verification_failure (store : CardStore)
    (id : Nat) (now : Int) : CardStore × Option Int :=
  let updated := store.map (fun c =>
    if c.id = id then
      { c with verification_failures := c.verification_failures + 1
               last_verified_at := some now }
    else c)
  (updated, (updated.find? (fun c => c.id == id)).map
    (fun c => c.verification_failures))

/-- Model of `MembershipCard::find_active_unexpired_cards` (`src/models/card.rs`
lines 156-176): rows of the pair with `status = 'active'` and
`(expires_at IS NULL OR expires_at > NOW())`. The `ORDER BY issued_at`
of the SQL is not modelled; no claim depends on the ordering. -/
def MembershipCard.find_active_unexpired_cards (store : CardStore)
    (issuer_id member_id : Nat) (now : Int) : List MembershipCard :=
  store.filter (fun c => decide (c.issuer_id = issuer_id ∧
    c.member_id = member_id ∧ c.status = CardStatus.active ∧
    (c.expires_at = none ∨ ∃ e, c.expires_at = some e ∧ now < e)))

/-- Model of `FAILURE_THRESHOLD` from `src/jobs/subscription_checker.rs`. -/
def FAILURE_THRESHOLD : Int := 3

/-- Model of `EXPIRATION_EXTENSION_DAYS` from `src/jobs/subscription_checker.rs`. -/
def EXPIRATION_EXTENSION_DAYS : Int := 30

/-- Model of `VerificationResult` from `src/jobs/subscription_checker.rs`. -/
inductive VerificationResult where
  | stillMember
  | membershipExpired
deriving DecidableEq, Repr

/-- The card-update portion of `verify_single_card`
(`src/jobs/subscription_checker.rs` lines 183-226), with the outcome of
the upstream membership check passed in as `is_still_member`. On success
it extends the card by `EXPIRATION_EXTENSION_DAYS`; on failure it calls
`increment_verification_failure` and, when the returned count is
`>= FAILURE_THRESHOLD`, `set_status(Expired)`. The returned `Bool` records
whether `set_status` was invoked; `none` is the `DatabaseError` arm (no
row matched the `RETURNING` fetch). -/
def verify_single_card_outcome (store : CardStore) (card_id : Nat)
    (is_still_member : Bool) (now : Int) :
    Option (CardStore × VerificationResult × Bool) :=
  if is_still_member then
    some (MembershipCard.extend_expiration store card_id
            EXPIRATION_EXTENSION_DAYS now,
          VerificationResult.stillMember, false)
  else
    match MembershipCard.increment_verification_failure store card_id now with
    | (store', some failures) =>
      if failures ≥ FAILURE_THRESHOLD then
        some (MembershipCard.set_status store' card_id CardStatus.expired,
              VerificationResult.membershipExpired, true)
      else
        some (store', VerificationResult.membershipExpired, false)
    | (_, none) => none

/-- One `MembershipCard::create` call: its `CreateCardData`, the `NOW()`
of its transaction, and the id the database assigns to the new row. -/
abbrev CreateCall := CreateCardData × Int × Nat

/-- A serialized history of `create` transactions (the database serializes
the concurrent `issue_card` calls at the transaction boundary). -/
def apply_creates : List CreateCall → CardStore → CardStore
  | [], store => store
  | (data, now, new_id) :: rest, store =>
    apply_creates rest (MembershipCard.create store data now new_id).1

/-- A card of the `(iss, mem)` pair whose status is `active`. -/
def pairActive (iss mem : Nat) (c : MembershipCard) : Bool :=
  decide (c.issuer_id = iss ∧ c.member_id = mem ∧
    c.status = CardStatus.active)

/-- Invariant I1, strengthened to ignore expiry: at most one `active` card
per `(issuer, member)` pair. -/
def at_most_one_active (store : CardStore) : Prop :=
  ∀ iss mem, store.countP (pairActive iss mem) ≤ 1

/-- Sample audit snapshot for concrete instantiations. -/
def sample_snapshot : Snapshot :=
  { comment_id := "Ugx1"
    comment_text := "great video"
    comment_published_at := 100
    author_channel_id := "UCalice"
    author_display_name := "Alice"
    verification_video_id := "vid1"
    verified_at := 200
    session_started_at := 50 }

/-- Sample `CreateCardData` for concrete instantiations. -/
def sample_create_data : CreateCardData :=
  { issuer_id := 1
    member_id := 2
    membership_level_label := "Member"
    membership_confirmed_at := 100
    verification_comment_id := "Ugx1"
    verification_video_id := "vid1"
    snapshot_json := sample_snapshot }

/-- A concrete card in the terminal status `expired`. -/
def expired_card : MembershipCard :=
  { id := 7
    issuer_id := 1
    member_id := 2
    membership_level_label := "Member"
    membership_confirmed_at := 0
    verification_comment_id := "Ugx1"
    verification_video_id := "vid1"
    snapshot_json := sample_snapshot
    status := CardStatus.expired
    expires_at := some 10
    last_verified_at := some 5
    verification_failures := 1
    deleted_at := none
    issued_at := 0
    wallet_transaction_id := none
    wallet_qr_code := none
    wallet_deep_link := none
    wallet_cid := none
    wallet_scanned_at := none }

/-- A concrete freshly issued card (status `active`, zero failures). -/
def fresh_card : MembershipCard :=
  { id := 11
    issuer_id := 1
    member_id := 2
    membership_level_label := "Member"
    membership_confirmed_at := 100
    verification_comment_id := "Ugx1"
    verification_video_id := "vid1"
    snapshot_json := sample_snapshot
    status := CardStatus.active
    expires_at := some (1000 + Duration.days 30)
    last_verified_at := none
    verification_failures := 0
    deleted_at := none
    issued_at := 1000
    wallet_transaction_id := none
    wallet_qr_code := none
    wallet_deep_link := none
    wallet_cid := none
    wallet_scanned_at := none }

/-- Splits a character list at every occurrence of `sep`, keeping empty
segments — the semantics of Rust's `str::split(char)`, which always yields
at least one (possibly empty) segment. -/
def splitOnChar (sep : Char) : List Char → List (List Char)
  | [] => [[]]
  | x :: xs =>
    match splitOnChar sep xs with
    | [] => [[]]
    | y :: ys => if x = sep then [] :: y :: ys else (x :: y) :: ys

/-- Splits at the first occurrence of `sep` (separator dropped); `none`
when `sep` does not occur. -/
def splitFirst (sep : Char) : List Char → Option (List Char × List Char)
  | [] => none
  | x :: xs =>
    if x = sep then some ([], xs)
    else
      match splitFirst sep xs with
      | some (a, b) => some (x :: a, b)
      | none => none

/-- Model of Rust's `char::is_alphanumeric` restricted to ASCII. The Rust
predicate also accepts non-ASCII Unicode alphabetic/numeric characters;
every input exercised by the claims is ASCII, where the two predicates
agree. -/
def char_is_alphanumeric (c : Char) : Bool := c.isAlphanum

/-- The bare-id test of `extract_comment_and_video_id`
(`src/services/comment_verifier.rs` lines 145-149):
`input.chars().all(|c| c.is_alphanumeric() || c == '-' || c == '_')`. -/
def is_bare_comment_id (s : List Char) : Bool :=
  s.all (fun c => char_is_alphanumeric c || c == '-' || c == '_')

/-- Value of an ASCII hex digit, accepting both letter cases (as Rust's
`hex::decode` does). -/
def hexDigitVal (c : Char) : Option Nat :=
  if '0' ≤ c ∧ c ≤ '9' then some (c.toNat - '0'.toNat)
  else if 'a' ≤ c ∧ c ≤ 'f' then some (c.toNat - 'a'.toNat + 10)
  else if 'A' ≤ c ∧ c ≤ 'F' then some (c.toNat - 'A'.toNat + 10)
  else none

/-- Modelled from the external `url` crate: the percent/plus decoding
that `Url::query_pairs` applies to each key and value
(`form_urlencoded`), for ASCII escape sequences; `fuel` only drives the
recursion (each step consumes at least one character, so `l.length` fuel
never runs out). -/
def form_decode_go : Nat → List Char → List Char
  | 0, l => l
  | _ + 1, [] => []
  | fuel + 1, c :: rest =>
    if c = '+' then ' ' :: form_decode_go fuel rest
    else if c = '%' then
      match rest with
      | a :: b :: rest' =>
        match hexDigitVal a, hexDigitVal b with
        | some x, some y => Char.ofNat (16 * x + y) :: form_decode_go fuel rest'
        | _, _ => c :: form_decode_go fuel rest
      | _ => c :: form_decode_go fuel rest
    else c :: form_decode_go fuel rest

/-- Modelled from the external `url` crate: form-urlencoded decoding of a
query key or value. -/
def form_decode (l : List Char) : List Char := form_decode_go l.length l

/-- First character `ALPHA`, remaining characters
`ALPHA / DIGIT / "+" / "-" / "."` — the RFC 3986 scheme grammar enforced
by `Url::parse`. -/
def valid_scheme (s : List Char) : Bool :=
  match s with
  | [] => false
  | c :: rest =>
    c.isAlpha && rest.all (fun d => d.isAlphanum || d == '+' || d == '-'
      || d == '.')

/-- The part of a parsed URL the comment extractor consumes. -/
structure UrlModel where
  scheme : List Char
  query : Option (List Char)
deriving DecidableEq, Repr

/-- Modelled from the external `url` crate: `Url::parse` requires a valid
scheme followed by a colon; the query is the text between the first `?`
and the fragment. Authority/path validation and percent-escaped
structural characters are not modelled — no claim depends on them. -/
def url_parse (s : List Char) : Option UrlModel :=
  match splitFirst ':' s with
  | none => none
  | some (scheme, rest) =>
    if valid_scheme scheme then
      some { scheme := scheme
             query :=
               match splitFirst '?' rest with
               | none => none
               | some (_, q) => some ((splitFirst '#' q).elim q
                   (fun p => p.1)) }
    else none

/-- Modelled from the external `url` crate: `Url::query_pairs`, splitting
the raw query on `&`, each pair at the first `=` (missing value decodes to
the empty string), and form-decoding keys and values. -/
def query_pairs (q : List Char) : List (List Char × List Char) :=
  (splitOnChar '&' q).map (fun kv =>
    match splitFirst '=' kv with
    | some (k, v) => (form_decode k, form_decode v)
    | none => (form_decode kv, []))

/-- Model of `extract_comment_and_video_id` (`src/services/comment_verifier.rs`
lines 143-172): bare alphanumeric/hyphen/underscore inputs are returned
directly with no video id; otherwise the input is URL-parsed and the last
`lc` (comment id) and `v` (video id) query parameters are collected, the
whole extraction failing when no `lc` parameter is found. -/
def extract_comment_and_video_id (input : List Char) :
    Option (List Char × Option (List Char)) :=
  if is_bare_comment_id input then some (input, none)
  else
    match url_parse input with
    | some u =>
      match u.query with
      | some q =>
        let acc := (query_pairs q).foldl
          (fun (acc : Option (List Char) × Option (List Char)) p =>
            if p.1 = "lc".data then (some p.2, acc.2)
            else if p.1 = "v".data then (acc.1, some p.2)
            else acc)
          (none, none)
        match acc.1 with
        | some cid => some (cid, acc.2)
        | none => none
      | none => none
    | none => none

/-- Model of `CommentVerificationError` from `src/services/comment_verifier.rs`. -/
inductive CommentVerificationError where
  | httpError
  | commentNotFound
  | commentOwnershipMismatch
  | wrongVideo
  | apiError (msg : String)
  | parseError (msg : String)
deriving DecidableEq, Repr

/-- Model of `WalletQrError` from `src/services/wallet_qr.rs`. -/
inductive WalletQrError where
  | httpError
  | apiError (msg : String)
  | missingVcUid
  | invalidJwt (msg : String)
  | credentialNotReady
deriving DecidableEq, Repr

/-- Model of `CardIssuanceError` from `src/services/card_issuer.rs`. The payload of
`duplicateCard` is modelled as the existing card's raw `expires_at`
(the Rust code formats it into a user-facing string). -/
inductive CardIssuanceError where
  | databaseError
  | commentVerification (e : CommentVerificationError)
  | walletQrGeneration (e : WalletQrError)
  | walletServiceUnavailable
  | issuerNotFound
  | duplicateCard (expires : Option Int)
  | invalidCommentId
  | missingVcUid
  | issuerApiNotConfigured
deriving DecidableEq, Repr

/-- Model of `CardIssuer` from `src/models/issuer.rs`; the video ids are kept at
character level for comparison with extracted references. -/
structure CardIssuer where
  id : Nat
  platform : String
  youtube_channel_id : String
  channel_handle : Option String
  channel_name : String
  verification_video_id : List Char
  default_membership_label : String
  vc_uid : Option String
  members_only_video_id : Option (List Char)
  verification_method : String
  is_active : Bool
  created_at : Int
  updated_at : Int
deriving DecidableEq, Repr

/-- Model of `Member` from `src/models/member.rs`. -/
structure Member where
  id : Nat
  youtube_user_id : String
  default_display_name : String
  avatar_url : Option String
  locale : Option String
  created_at : Int
  updated_at : Int
deriving DecidableEq, Repr

/-- Model of `CreateMemberData` from `src/models/member.rs`. -/
structure CreateMemberData where
  youtube_user_id : String
  default_display_name : String
  avatar_url : Option String
  locale : Option String
deriving DecidableEq, Repr

/-- Model of `Member::update_profile` (`src/models/member.rs`):
`COALESCE`-style update of the profile fields of the matching row. -/
def Member.update_profile (members : List Member) (id : Nat)
    (display_name avatar_url locale : Option String) : List Member :=
  members.map (fun m =>
    if m.id = id then
      { m with default_display_name :=
                 display_name.getD m.default_display_name
               avatar_url := match avatar_url with
                 | some a => some a
                 | none => m.avatar_url
               locale := match locale with
                 | some l => some l
                 | none => m.locale }
    else m)

/-- Model of `Member::find_or_create` (`src/models/member.rs` lines 106-130):
upsert keyed by `youtube_user_id`; an existing row is profile-refreshed
and re-fetched (`none` models the `RowNotFound` failure of the re-fetch),
a missing one is inserted. -/
def Member.find_or_create (members : List Member) (data : CreateMemberData)
    (now : Int) (new_id : Nat) : List Member × Option Member :=
  match members.find? (fun m => m.youtube_user_id == data.youtube_user_id)
    with
  | some existing =>
    let updated := Member.update_profile members existing.id
      (some data.default_display_name) data.avatar_url data.locale
    (updated, updated.find? (fun m => m.id == existing.id))
  | none =>
    let row : Member :=
      { id := new_id
        youtube_user_id := data.youtube_user_id
        default_display_name := data.default_display_name
        avatar_url := data.avatar_url
        locale := data.locale
        created_at := now
        updated_at := now }
    (members ++ [row], some row)

/-- Model of `MembershipCard::find_by_id` (`src/models/card.rs`). -/
def MembershipCard.find_by_id (store : CardStore) (id : Nat) :
    Option MembershipCard :=
  store.find? (fun c => c.id == id)

/-- Model of `MembershipCard::set_wallet_qr` (`src/models/card.rs` lines
330-354). -/
def MembershipCard.set_wallet_qr (store : CardStore) (card_id : Nat)
    (transaction_id qr_code : String) (deep_link : Option String) :
    CardStore :=
  store.map (fun c =>
    if c.id = card_id then
      { c with wallet_transaction_id := some transaction_id
               wallet_qr_code := some qr_code
               wallet_deep_link := deep_link }
    else c)

/-- Model of `CommentVerificationResult` from `src/services/comment_verifier.rs`,
with the id/display-name fields at character level. -/
structure CommentVerificationResult where
  comment_id : List Char
  author_channel_id : String
  author_display_name : List Char
  video_id : List Char
  published_at : Int
  text : String
deriving DecidableEq, Repr

/-- Model of `WalletQrResponse` from `src/services/wallet_qr.rs`. -/
structure WalletQrResponse where
  transaction_id : String
  qr_code : String
  deep_link : String
deriving DecidableEq, Repr

/-- Model of `check_wallet_health` (`src/services/wallet_qr.rs` lines 47-73): the
HEAD probe with the transport outcome passed in (`Except.error` a
transport failure, `Except.ok status` an HTTP response). A transport
failure maps to `HttpError`, a 5xx status (`is_server_error`) to
`ApiError`; everything else passes. -/
def check_wallet_health (response : Except Unit Nat) :
    Except WalletQrError Unit :=
  match response with
  | Except.error _ => Except.error WalletQrError.httpError
  | Except.ok status =>
    if 500 ≤ status ∧ status ≤ 599 then
      Except.error (WalletQrError.apiError "Wallet API unavailable")
    else Except.ok ()

/-- The display-name sanitization of `issue_card`
(`src/services/card_issuer.rs` lines 200-211): keep alphanumerics,
underscore and CJK ideographs; an empty result becomes `"Member"`. -/
def sanitize_display_name (name : List Char) : List Char :=
  let s := name.filter (fun c => char_is_alphanumeric c || c == '_' ||
    decide ('一' ≤ c ∧ c ≤ '鿿'))
  if s.isEmpty then "Member".data else s

/-- Model of `IssueCardRequest` from `src/services/card_issuer.rs`. -/
structure IssueCardRequest where
  issuer_id : Nat
  member_youtube_user_id : String
  member_display_name : String
  member_avatar_url : Option String
  comment_link_or_id : List Char
  session_started_at : Int
  access_token : String
deriving DecidableEq, Repr

/-- Outcomes of the network calls `issue_card` makes, supplied as
oracles: the health probe's transport result, the YouTube comment
verification result, and the wallet QR minting result. -/
structure IssueEnv where
  health_response : Except Unit Nat
  verify_comment_result :
    Except CommentVerificationError CommentVerificationResult
  wallet_qr_result : Except WalletQrError WalletQrResponse

/-- The database visible to `issue_card`. -/
structure DbState where
  issuers : List CardIssuer
  members : List Member
  cards : CardStore
deriving DecidableEq, Repr

/-- How many times `issue_card` invoked the wallet health probe and the
membership proof checker. -/
structure IssueCounters where
  health_checks : Nat
  proof_checks : Nat
deriving DecidableEq, Repr

/-- Model of `issue_card` (`src/services/card_issuer.rs` lines 70-293), step by
step in source order: required issuer API config; fail-fast wallet health
probe; issuer lookup and activity check; comment/video-id extraction and
video match; comment verification (the proof check, counted); member
upsert; duplicate active-unexpired-card rejection; audit snapshot;
`vc_uid` presence; display-name sanitization and wallet QR minting; card
creation; wallet-field attach and re-fetch. The `.expect` on the re-fetch
is modelled as `databaseError`. -/
def issue_card (env : IssueEnv) (db : DbState)
    (issuer_api_config : Option (String × String))
    (request : IssueCardRequest) (now : Int)
    (new_member_id new_card_id : Nat) :
    Except CardIssuanceError (MembershipCard × Member) × DbState ×
      IssueCounters :=
  match issuer_api_config with
  | none => (Except.error CardIssuanceError.issuerApiNotConfigured, db,
      ⟨0, 0⟩)
  | some _ =>
    match check_wallet_health env.health_response with
    | Except.error _ =>
      (Except.error CardIssuanceError.walletServiceUnavailable, db, ⟨1, 0⟩)
    | Except.ok _ =>
      match db.issuers.find? (fun i => i.id == request.issuer_id) with
      | none => (Except.error CardIssuanceError.issuerNotFound, db, ⟨1, 0⟩)
      | some issuer =>
        if issuer.is_active = false then
          (Except.error CardIssuanceError.issuerNotFound, db, ⟨1, 0⟩)
        else
          match extract_comment_and_video_id request.comment_link_or_id with
          | none =>
            (Except.error CardIssuanceError.invalidCommentId, db, ⟨1, 0⟩)
          | some (_comment_id, url_video_id) =>
            if (match url_video_id with
                | some vid => decide (vid ≠ issuer.verification_video_id)
                | none => false) then
              (Except.error CardIssuanceError.invalidCommentId, db, ⟨1, 0⟩)
            else
              match env.verify_comment_result with
              | Except.error e =>
                (Except.error (CardIssuanceError.commentVerification e), db,
                  ⟨1, 1⟩)
              | Except.ok vr =>
                match Member.find_or_create db.members
                  { youtube_user_id := request.member_youtube_user_id
                    default_display_name := String.mk vr.author_display_name
                    avatar_url := request.member_avatar_url
                    locale := none } now new_member_id with
                | (members', none) =>
                  (Except.error CardIssuanceError.databaseError,
                    { db with members := members' }, ⟨1, 1⟩)
                | (members', some member) =>
                  let db1 : DbState := { db with members := members' }
                  match (MembershipCard.find_active_unexpired_cards db1.cards
                      issuer.id member.id now).head? with
                  | some existing =>
                    (Except.error (CardIssuanceError.duplicateCard
                      existing.expires_at), db1, ⟨1, 1⟩)
                  | none =>
                    let snapshot : Snapshot :=
                      { comment_id := String.mk vr.comment_id
                        comment_text := vr.text
                        comment_published_at := vr.published_at
                        author_channel_id := vr.author_channel_id
                        author_display_name :=
                          String.mk vr.author_display_name
                        verification_video_id := String.mk vr.video_id
                        verified_at := now
                        session_started_at := request.session_started_at }
                    match issuer.vc_uid with
                    | none =>
                      (Except.error CardIssuanceError.missingVcUid, db1,
                        ⟨1, 1⟩)
                    | some _vc_uid =>
                      let _display_name :=
                        sanitize_display_name vr.author_display_name
                      match env.wallet_qr_result with
                      | Except.error e =>
                        (Except.error (CardIssuanceError.walletQrGeneration
                          e), db1, ⟨1, 1⟩)
                      | Except.ok qr =>
                        let created := MembershipCard.create db1.cards
                          { issuer_id := issuer.id
                            member_id := member.id
                            membership_level_label :=
                              issuer.default_membership_label
                            membership_confirmed_at := vr.published_at
                            verification_comment_id :=
                              String.mk vr.comment_id
                            verification_video_id := String.mk vr.video_id
                            snapshot_json := snapshot } now new_card_id
                        let cards2 := MembershipCard.set_wallet_qr created.1
                          created.2.id qr.transaction_id qr.qr_code
                          (some qr.deep_link)
                        match MembershipCard.find_by_id cards2
                          created.2.id with
                        | some card =>
                          (Except.ok (card, member),
                            { db1 with cards := cards2 }, ⟨1, 1⟩)
                        | none =>
                          (Except.error CardIssuanceError.databaseError,
                            { db1 with cards := cards2 }, ⟨1, 1⟩)

/-- A probe environment whose health check answers HTTP 503. -/
def wallet_down_env : IssueEnv :=
  { health_response := Except.ok 503
    verify_comment_result :=
      Except.error CommentVerificationError.commentNotFound
    wallet_qr_result := Except.error WalletQrError.credentialNotReady }

/-- Sample issuance request for concrete instantiations. -/
def sample_request : IssueCardRequest :=
  { issuer_id := 1
    member_youtube_user_id := "UCalice"
    member_display_name := "Alice"
    member_avatar_url := none
    comment_link_or_id := "Ugx1".data
    session_started_at := 50
    access_token := "tok" }

/-- UTF-8 encoding of one character (RFC 3629), the semantics of Rust's
`String::into_bytes`/`as_bytes`. -/
def utf8EncodeChar (c : Char) : List Nat :=
  let n := c.toNat
  if n < 0x80 then [n]
  else if n < 0x800 then [0xC0 + n / 0x40, 0x80 + n % 0x40]
  else if n < 0x10000 then
    [0xE0 + n / 0x1000, 0x80 + (n / 0x40) % 0x40, 0x80 + n % 0x40]
  else
    [0xF0 + n / 0x40000, 0x80 + (n / 0x1000) % 0x40,
      0x80 + (n / 0x40) % 0x40, 0x80 + n % 0x40]

/-- UTF-8 encoding of a string, as `String::into_bytes` produces. -/
def utf8Encode (s : List Char) : List Nat :=
  (s.map utf8EncodeChar).flatten

/-- Model of `OAuthSession` from `src/models/oauth_session.rs`; `access_token` and
`refresh_token` are the BYTEA columns. -/
structure OAuthSession where
  id : Nat
  member_id : Nat
  access_token : List Nat
  refresh_token : Option (List Nat)
  token_scope : String
  token_expires_at : Int
  created_at : Int
  last_used_at : Int
deriving DecidableEq, Repr

/-- Model of `CreateSessionData` from `src/models/oauth_session.rs`. -/
structure CreateSessionData where
  member_id : Nat
  access_token : List Nat
  refresh_token : Option (List Nat)
  token_scope : String
  token_expires_at : Int
deriving DecidableEq, Repr

/-- Model of `OAuthSession::create` (`src/models/oauth_session.rs` lines 29-48):
inserts the row exactly as given (the bytes bound to `$2`/`$3` go into
the BYTEA columns untransformed). -/
def OAuthSession.create (sessions : List OAuthSession)
    (data : CreateSessionData) (now : Int) (new_id : Nat) :
    List OAuthSession × OAuthSession :=
  let row : OAuthSession :=
    { id := new_id
      member_id := data.member_id
      access_token := data.access_token
      refresh_token := data.refresh_token
      token_scope := data.token_scope
      token_expires_at := data.token_expires_at
      created_at := now
      last_used_at := now }
  (sessions ++ [row], row)

/-- Model of `OAuthSession::update_tokens` (`src/models/oauth_session.rs` lines
85-111): overwrites the token bytes, expiry and `last_used_at` of the
matching row, again with the given bytes untransformed. -/
def OAuthSession.update_tokens (sessions : List OAuthSession) (id : Nat)
    (access_token : List Nat) (refresh_token : Option (List Nat))
    (expires_at now : Int) : List OAuthSession :=
  sessions.map (fun s =>
    if s.id = id then
      { s with access_token := access_token
               refresh_token := refresh_token
               token_expires_at := expires_at
               last_used_at := now }
    else s)

/-- The session-persistence step of the OAuth callback
(`src/api/auth.rs` lines 154-167): the bytes handed to
`OAuthSession::create` are `token_data.access_token.into_bytes()` — the
raw UTF-8 bytes of the token, with no encryption applied (the code
comments this as storing plaintext tokens). -/
def youtube_callback_store_session (sessions : List OAuthSession)
    (member_id : Nat) (access_token : List Char)
    (refresh_token : Option (List Char)) (scope : String)
    (token_expires_at now : Int) (new_id : Nat) :
    List OAuthSession × OAuthSession :=
  OAuthSession.create sessions
    { member_id := member_id
      access_token := utf8Encode access_token
      refresh_token := refresh_token.map utf8Encode
      token_scope := scope
      token_expires_at := token_expires_at } now new_id

/-- The refresh-persistence step of the re-verification job
(`src/jobs/subscription_checker.rs` lines 146-155): the refreshed pair is
handed to `OAuthSession::update_tokens` as
`token_data.access_token.as_bytes().to_vec()` — again raw UTF-8 bytes,
with no encryption applied. -/
def reverification_update_session_tokens (sessions : List OAuthSession)
    (id : Nat) (access_token : List Char)
    (refresh_token : Option (List Char)) (expires_at now : Int) :
    List OAuthSession :=
  OAuthSession.update_tokens sessions id (utf8Encode access_token)
    (refresh_token.map utf8Encode) expires_at now

/-- Model of `NONCE_LEN` from `src/services/encryption.rs`. -/
def NONCE_LEN : Nat := 12

/-- Length of an `encrypt` output (`src/services/encryption.rs` lines
50-77): the 12-byte random nonce prepended to the ciphertext, which
AES-256-GCM's `seal_in_place_append_tag` extends by a 16-byte tag; only
this shape of the external `ring` AEAD is modelled. -/
def encrypted_len (plaintext_len : Nat) : Nat :=
  NONCE_LEN + plaintext_len + 16

/-- 32-bit truncation (all SHA-256 words live modulo `2^32`). -/
def w32 (n : Nat) : Nat := n % 4294967296

/-- 32-bit right rotation. -/
def rotr32 (r x : Nat) : Nat := w32 ((x >>> r) ||| (x <<< (32 - r)))

/-- SHA-256 `Ch` function (FIPS 180-4). -/
def sha_ch (x y z : Nat) : Nat := (x &&& y) ^^^ ((x ^^^ 4294967295) &&& z)

/-- SHA-256 `Maj` function (FIPS 180-4). -/
def sha_maj (x y z : Nat) : Nat := (x &&& y) ^^^ (x &&& z) ^^^ (y &&& z)

/-- SHA-256 big sigma 0. -/
def bsig0 (x : Nat) : Nat := rotr32 2 x ^^^ rotr32 13 x ^^^ rotr32 22 x

/-- SHA-256 big sigma 1. -/
def bsig1 (x : Nat) : Nat := rotr32 6 x ^^^ rotr32 11 x ^^^ rotr32 25 x

/-- SHA-256 small sigma 0. -/
def ssig0 (x : Nat) : Nat := rotr32 7 x ^^^ rotr32 18 x ^^^ (x >>> 3)

/-- SHA-256 small sigma 1. -/
def ssig1 (x : Nat) : Nat := rotr32 17 x ^^^ rotr32 19 x ^^^ (x >>> 10)

/-- The SHA-256 round constants (FIPS 180-4 section 4.2.2). -/
def SHA_K : List Nat :=
  [1116352408, 1899447441, 3049323471, 3921009573, 961987163,
   1508970993, 2453635748, 2870763221, 3624381080, 310598401,
   607225278, 1426881987, 1925078388, 2162078206, 2614888103,
   3248222580, 3835390401, 4022224774, 264347078, 604807628,
   770255983, 1249150122, 1555081692, 1996064986, 2554220882,
   2821834349, 2952996808, 3210313671, 3336571891, 3584528711,
   113926993, 338241895, 666307205, 773529912, 1294757372,
   1396182291, 1695183700, 1986661051, 2177026350, 2456956037,
   2730485921, 2820302411, 3259730800, 3345764771, 3516065817,
   3600352804, 4094571909, 275423344, 430227734, 506948616,
   659060556, 883997877, 958139571, 1322822218, 1537002063,
   1747873779, 1955562222, 2024104815, 2227730452, 2361852424,
   2428436474, 2756734187, 3204031479, 3329325298]

/-- The SHA-256 initial hash value (FIPS 180-4 section 5.3.3). -/
def SHA_H0 : List Nat :=
  [1779033703, 3144134277, 1013904242, 2773480762,
   1359893119, 2600822924, 528734635, 1541459225]

/-- Big-endian byte decomposition of `n` into `numBytes` bytes. -/
def toBytesBE (numBytes n : Nat) : List Nat :=
  (List.range numBytes).map (fun i => (n >>> (8 * (numBytes - 1 - i))) % 256)

/-- SHA-256 message padding: `0x80`, zeros to 56 mod 64, then the bit
length on 8 bytes. -/
def sha256_pad (msg : List Nat) : List Nat :=
  let len := msg.length
  let k := (119 - (len % 64)) % 64
  msg ++ [0x80] ++ List.replicate k 0 ++ toBytesBE 8 (len * 8)

/-- The `i`-th big-endian 32-bit word of a 64-byte block. -/
def word_at (block : List Nat) (i : Nat) : Nat :=
  block.getD (4 * i) 0 * 16777216 + block.getD (4 * i + 1) 0 * 65536 +
    block.getD (4 * i + 2) 0 * 256 + block.getD (4 * i + 3) 0

/-- The 64-entry SHA-256 message schedule of one block. -/
def sha256_schedule (block : List Nat) : List Nat :=
  let w16 := (List.range 16).map (word_at block)
  (List.range 48).foldl (fun w _ =>
    w ++ [w32 (ssig1 (w.getD (w.length - 2) 0) + w.getD (w.length - 7) 0 +
      ssig0 (w.getD (w.length - 15) 0) + w.getD (w.length - 16) 0)]) w16

/-- One SHA-256 round on the 8-word state, with `(K t, W t)` supplied. -/
def sha256_round (st : List Nat) (kw : Nat × Nat) : List Nat :=
  let a := st.getD 0 0
  let b := st.getD 1 0
  let c := st.getD 2 0
  let d := st.getD 3 0
  let e := st.getD 4 0
  let f := st.getD 5 0
  let g := st.getD 6 0
  let hh := st.getD 7 0
  let t1 := w32 (hh + bsig1 e + sha_ch e f g + kw.1 + kw.2)
  let t2 := w32 (bsig0 a + sha_maj a b c)
  [w32 (t1 + t2), a, b, c, w32 (d + t1), e, f, g]

/-- SHA-256 compression of one 64-byte block into the running state. -/
def sha256_compress (h : List Nat) (block : List Nat) : List Nat :=
  let ws := sha256_schedule block
  let final := (SHA_K.zip ws).foldl sha256_round h
  List.zipWith (fun x y => w32 (x + y)) h final

/-- SHA-256 of a byte string (FIPS 180-4); models the external `ring`
digest used by `src/services/signature.rs` and
`src/services/encryption.rs`. -/
def sha256 (msg : List Nat) : List Nat :=
  let padded := sha256_pad msg
  let nblocks := padded.length / 64
  let final := (List.range nblocks).foldl
    (fun h i => sha256_compress h ((padded.drop (64 * i)).take 64)) SHA_H0
  (final.map (toBytesBE 4)).flatten

/-- HMAC-SHA256 (RFC 2104); models `ring::hmac` with the 64-byte SHA-256
block size. -/
def hmacSha256 (key msg : List Nat) : List Nat :=
  let k0 := if 64 < key.length then sha256 key else key
  let k0p := k0 ++ List.replicate (64 - k0.length) 0
  let ipad := k0p.map (fun b => b ^^^ 0x36)
  let opad := k0p.map (fun b => b ^^^ 0x5c)
  sha256 (opad ++ sha256 (ipad ++ msg))

/-- Lowercase hex digit of a value below 16. -/
def hexDigitChar (n : Nat) : Char :=
  if n < 10 then Char.ofNat (48 + n) else Char.ofNat (87 + n)

/-- Lowercase hex encoding of a byte string — `hex::encode`. -/
def hexEncode (bs : List Nat) : List Char :=
  (bs.map (fun b => [hexDigitChar (b / 16), hexDigitChar (b % 16)])).flatten

/-- Model of `hex::decode`: accepts both letter cases (via `hexDigitVal`), fails
on odd length or on any non-hex character. -/
def hexDecode : List Char → Option (List Nat)
  | [] => some []
  | [_] => none
  | a :: b :: rest =>
    match hexDigitVal a, hexDigitVal b with
    | some x, some y => (hexDecode rest).map (fun r => (16 * x + y) :: r)
    | _, _ => none

/-- Model of `SignatureError` from `src/services/signature.rs`. -/
inductive SignatureError where
  | invalidFormat
  | verificationFailed
deriving DecidableEq, Repr

/-- Model of `sign` (`src/services/signature.rs` lines 13-17): hex-encoded
HMAC-SHA256 of the payload's UTF-8 bytes under the key. -/
def sign (payload : List Char) (key : List Nat) : List Char :=
  hexEncode (hmacSha256 key (utf8Encode payload))

/-- Model of `verify` (`src/services/signature.rs` lines 21-30): hex-decode the
signature (`InvalidFormat` on failure), then compare against the
recomputed HMAC (`ring::hmac::verify`), returning `Ok(true)`/`Ok(false)`. -/
def verify (payload : List Char) (signature_hex : List Char)
    (key : List Nat) : Except SignatureError Bool :=
  match hexDecode signature_hex with
  | none => Except.error SignatureError.invalidFormat
  | some signature_bytes =>
    Except.ok (decide (signature_bytes = hmacSha256 key (utf8Encode payload)))

deriving instance DecidableEq for Except

/-- Value of one base64url alphabet character (`A-Z a-z 0-9 - _`). -/
def base64UrlDigit (c : Char) : Option Nat :=
  if 'A' ≤ c ∧ c ≤ 'Z' then some (c.toNat - 65)
  else if 'a' ≤ c ∧ c ≤ 'z' then some (c.toNat - 97 + 26)
  else if '0' ≤ c ∧ c ≤ '9' then some (c.toNat - 48 + 52)
  else if c = '-' then some 62
  else if c = '_' then some 63
  else none

/-- Modelled from the external `base64` crate: `URL_SAFE_NO_PAD` decoding
— groups of four 6-bit characters yield three bytes, a final group of two
or three yields one or two bytes; invalid characters, a length of 1 mod
4, and nonzero trailing bits are rejected. -/
def base64UrlDecode : List Char → Option (List Nat)
  | [] => some []
  | [_] => none
  | [a, b] =>
    match base64UrlDigit a, base64UrlDigit b with
    | some x, some y =>
      if y % 16 = 0 then some [x * 4 + y / 16] else none
    | _, _ => none
  | [a, b, c] =>
    match base64UrlDigit a, base64UrlDigit b, base64UrlDigit c with
    | some x, some y, some z =>
      if z % 4 = 0 then some [x * 4 + y / 16, y % 16 * 16 + z / 4]
      else none
    | _, _, _ => none
  | a :: b :: c :: d :: rest =>
    match base64UrlDigit a, base64UrlDigit b, base64UrlDigit c,
        base64UrlDigit d with
    | some x, some y, some z, some w =>
      (base64UrlDecode rest).map (fun r =>
        (x * 4 + y / 16) :: ((y % 16 * 16 + z / 4) :: ((z % 4 * 64 + w) :: r)))
    | _, _, _, _ => none

/-- JSON insignificant whitespace skipping (RFC 8259). -/
def json_ws (l : List Char) : List Char :=
  l.dropWhile (fun c => c == ' ' || c == '\t' || c == '\n' || c == '\r')

/-- Modelled from the external `serde_json` crate: the body of a JSON
string after its opening quote, with the standard escapes; `\u` surrogate
pairs are not modelled. Returns the decoded string and the input past the
closing quote. -/
def json_string_body : List Char → Option (List Char × List Char)
  | [] => none
  | c :: rest =>
    if c = '"' then some ([], rest)
    else if c = '\\' then
      match rest with
      | [] => none
      | e :: rest1 =>
        if e = '"' then
          (json_string_body rest1).map (fun p => ('"' :: p.1, p.2))
        else if e = '\\' then
          (json_string_body rest1).map (fun p => ('\\' :: p.1, p.2))
        else if e = '/' then
          (json_string_body rest1).map (fun p => ('/' :: p.1, p.2))
        else if e = 'b' then
          (json_string_body rest1).map (fun p => (Char.ofNat 8 :: p.1, p.2))
        else if e = 'f' then
          (json_string_body rest1).map (fun p => (Char.ofNat 12 :: p.1, p.2))
        else if e = 'n' then
          (json_string_body rest1).map (fun p => ('\n' :: p.1, p.2))
        else if e = 'r' then
          (json_string_body rest1).map (fun p => (Char.ofNat 13 :: p.1, p.2))
        else if e = 't' then
          (json_string_body rest1).map (fun p => ('\t' :: p.1, p.2))
        else if e = 'u' then
          match rest1 with
          | h1 :: h2 :: h3 :: h4 :: rest2 =>
            match hexDigitVal h1, hexDigitVal h2, hexDigitVal h3,
                hexDigitVal h4 with
            | some v1, some v2, some v3, some v4 =>
              let n := 4096 * v1 + 256 * v2 + 16 * v3 + v4
              if 0xD800 ≤ n ∧ n ≤ 0xDFFF then none
              else (json_string_body rest2).map
                (fun p => (Char.ofNat n :: p.1, p.2))
            | _, _, _, _ => none
          | _ => none
        else none
    else if c.toNat < 32 then none
    else (json_string_body rest).map (fun p => (c :: p.1, p.2))

/-- Characters that may appear in a JSON number token. -/
def json_number_char (c : Char) : Bool :=
  c.isDigit || c == '-' || c == '+' || c == '.' || c == 'e' || c == 'E'

/-- Skips past the matching close of a container already entered,
string-aware; bracket kinds are not distinguished (a fidelity loss no
claim depends on). -/
def json_skip_container : Nat → Nat → List Char → Option (List Char)
  | 0, _, _ => none
  | _ + 1, _, [] => none
  | fuel + 1, depth, c :: rest =>
    if c = '"' then
      match json_string_body rest with
      | none => none
      | some (_, rest1) => json_skip_container fuel depth rest1
    else if c = '{' ∨ c = '[' then json_skip_container fuel (depth + 1) rest
    else if c = '}' ∨ c = ']' then
      if depth = 0 then some rest
      else json_skip_container fuel (depth - 1) rest
    else json_skip_container fuel depth rest

/-- Skips one JSON value (string, container, literal or number),
returning the input past it. -/
def json_skip_value (fuel : Nat) (l : List Char) : Option (List Char) :=
  match json_ws l with
  | [] => none
  | c :: rest =>
    if c = '"' then (json_string_body rest).map (fun p => p.2)
    else if c = '{' ∨ c = '[' then json_skip_container fuel 0 rest
    else
      let num := (c :: rest).takeWhile json_number_char
      if num.isEmpty then
        if (c :: rest).take 4 = "true".data then some ((c :: rest).drop 4)
        else if (c :: rest).take 5 = "false".data then
          some ((c :: rest).drop 5)
        else if (c :: rest).take 4 = "null".data then
          some ((c :: rest).drop 4)
        else none
      else some ((c :: rest).drop num.length)

/-- Walks the members of a JSON object (input positioned after `{` or a
`,`), remembering the last string value of the key `jti`; returns it with
the input past the closing `}`. A `jti` whose value is not a string fails,
as deserializing serde's `JwtClaims { jti: String }` does. -/
def json_parse_members :
    Nat → List Char → Option (List Char) →
    Option (Option (List Char) × List Char)
  | 0, _, _ => none
  | fuel + 1, l, acc =>
    match json_ws l with
    | '}' :: rest => some (acc, rest)
    | '"' :: rest =>
      match json_string_body rest with
      | none => none
      | some (key, rest1) =>
        match json_ws rest1 with
        | ':' :: rest3 =>
          if key = "jti".data then
            match json_ws rest3 with
            | '"' :: rest5 =>
              match json_string_body rest5 with
              | none => none
              | some (value, rest6) =>
                match json_ws rest6 with
                | ',' :: rest8 => json_parse_members fuel rest8 (some value)
                | '}' :: rest8 => some (some value, rest8)
                | _ => none
            | _ => none
          else
            match json_skip_value fuel rest3 with
            | none => none
            | some rest5 =>
              match json_ws rest5 with
              | ',' :: rest7 => json_parse_members fuel rest7 acc
              | '}' :: rest7 => some (acc, rest7)
              | _ => none
        | _ => none
    | _ => none

/-- Modelled from the external `serde_json` crate: deserializing
`JwtClaims` from the payload — a JSON object from which the `jti` string
member is extracted (other members are skipped, the document must end
after the object, a missing `jti` fails). -/
def parse_json_jti (l : List Char) : Option (List Char) :=
  match json_ws l with
  | '{' :: rest =>
    match json_parse_members (l.length + 1) rest none with
    | some (some jti, rest2) =>
      if (json_ws rest2).isEmpty then some jti else none
    | _ => none
  | _ => none

/-- Modelled from the external `serde_json` crate: `from_slice` works on
UTF-8 bytes; the model covers ASCII payloads (every byte below 128). -/
def bytesToAscii (bs : List Nat) : Option (List Char) :=
  if bs.all (fun b => decide (b < 128)) then some (bs.map Char.ofNat)
  else none

/-- Model of `extract_cid_from_jwt` (`src/services/wallet_qr.rs` lines 239-283):
split on `.` into exactly 3 parts (`InvalidJwt` otherwise), base64url-
decode the payload, parse its JSON for the `jti` claim, and return the
final `/`-separated segment of `jti`, rejecting an empty segment. -/
def extract_cid_from_jwt (jwt_token : List Char) :
    Except WalletQrError (List Char) :=
  let parts := splitOnChar '.' jwt_token
  if parts.length ≠ 3 then
    Except.error (WalletQrError.invalidJwt "JWT token does not have 3 parts")
  else
    match base64UrlDecode (parts.getD 1 []) with
    | none =>
      Except.error (WalletQrError.invalidJwt "Failed to decode base64")
    | some payload_bytes =>
      match bytesToAscii payload_bytes with
      | none =>
        Except.error (WalletQrError.invalidJwt "Failed to parse JSON")
      | some payload =>
        match parse_json_jti payload with
        | none =>
          Except.error (WalletQrError.invalidJwt "Failed to parse JSON")
        | some jti =>
          let cid := (splitOnChar '/' jti).getLastD []
          if cid.isEmpty then
            Except.error
              (WalletQrError.invalidJwt "CID extracted from jti is empty")
          else Except.ok cid

theorem create_supersedes_pair (store : CardStore) (data : CreateCardData)
    (now : Int) (new_id : Nat) :
    ∀ c ∈ (MembershipCard.create store data now new_id).1,
      c.issuer_id = data.issuer_id → c.member_id = data.member_id →
      c ≠ (MembershipCard.create store data now new_id).2 →
      c.status = CardStatus.deleted := by
  intro c hc hiss hmem hne
  simp only [MembershipCard.create, List.mem_append, List.mem_singleton] at hc
  rcases hc with hc | hc
  · rcases List.mem_map.mp hc with ⟨c₀, _, rfl⟩
    by_cases hcond : c₀.issuer_id = data.issuer_id ∧
        c₀.member_id = data.member_id ∧ c₀.status ≠ CardStatus.deleted
    · rw [if_pos hcond]
    · rw [if_neg hcond] at hiss hmem ⊢
      by_cases hdel : c₀.status = CardStatus.deleted
      · exact hdel
      · exact absurd ⟨hiss, hmem, hdel⟩ hcond
  · exact absurd hc hne

theorem create_superseded_not_active (store : CardStore)
    (data : CreateCardData) (now : Int) :
    (store.map (fun c =>
      if c.issuer_id = data.issuer_id ∧ c.member_id = data.member_id ∧
          c.status ≠ CardStatus.deleted
      then { c with status := CardStatus.deleted, deleted_at := some now }
      else c)).countP (pairActive data.issuer_id data.member_id) = 0 := by
  rw [List.countP_eq_zero]
  intro c hc
  rcases List.mem_map.mp hc with ⟨c₀, _, rfl⟩
  by_cases hcond : c₀.issuer_id = data.issuer_id ∧
      c₀.member_id = data.member_id ∧ c₀.status ≠ CardStatus.deleted
  · rw [if_pos hcond]
    simp [pairActive]
  · rw [if_neg hcond]
    simp only [pairActive, decide_eq_true_eq, not_and]
    intro h1 h2 h3
    exact hcond ⟨h1, h2, by rw [h3]; intro hcontra; cases hcontra⟩

theorem create_other_pair_count (store : CardStore) (data : CreateCardData)
    (now : Int) (iss mem : Nat)
    (h : ¬(iss = data.issuer_id ∧ mem = data.member_id)) :
    (store.map (fun c =>
      if c.issuer_id = data.issuer_id ∧ c.member_id = data.member_id ∧
          c.status ≠ CardStatus.deleted
      then { c with status := CardStatus.deleted, deleted_at := some now }
      else c)).countP (pairActive iss mem) =
    store.countP (pairActive iss mem) := by
  rw [List.countP_map]
  apply List.countP_congr
  intro c _
  by_cases hcond : c.issuer_id = data.issuer_id ∧
      c.member_id = data.member_id ∧ c.status ≠ CardStatus.deleted
  · simp only [Function.comp_apply, if_pos hcond, pairActive]
    have lhs : ¬(c.issuer_id = iss ∧ c.member_id = mem ∧
        CardStatus.deleted = CardStatus.active) := by
      rintro ⟨_, _, h3⟩; cases h3
    have rhs : ¬(c.issuer_id = iss ∧ c.member_id = mem ∧
        c.status = CardStatus.active) := by
      rintro ⟨h1, h2, _⟩
      exact h ⟨h1.symm.trans hcond.1, h2.symm.trans hcond.2.1⟩
    simp only [decide_eq_true_eq]
    exact iff_of_false lhs rhs
  · simp [hcond]

theorem pairActive_other_pair (iss mem : Nat) (cd : MembershipCard)
    (h1 : cd.issuer_id = iss) (h2 : cd.member_id = mem)
    (iss' mem' : Nat) (h : ¬(iss' = iss ∧ mem' = mem)) :
    pairActive iss' mem' cd = false := by
  simp only [pairActive, decide_eq_false_iff_not]
  rintro ⟨a, b, _⟩
  exact h ⟨a.symm.trans h1, b.symm.trans h2⟩

theorem create_preserves_at_most_one_active (store : CardStore)
    (data : CreateCardData) (now : Int) (new_id : Nat)
    (h : at_most_one_active store) :
    at_most_one_active (MembershipCard.create store data now new_id).1 := by
  intro iss mem
  simp only [MembershipCard.create, List.countP_append]
  by_cases hpair : iss = data.issuer_id ∧ mem = data.member_id
  · rcases hpair with ⟨rfl, rfl⟩
    rw [create_superseded_not_active store data now]
    simp only [Nat.zero_add, List.countP_cons, List.countP_nil]
    split <;> simp
  · rw [create_other_pair_count store data now iss mem hpair]
    rw [List.countP_cons, List.countP_nil,
      pairActive_other_pair data.issuer_id data.member_id _ rfl rfl iss mem
        hpair]
    simpa using h iss mem

theorem apply_creates_at_most_one_active (ops : List CreateCall)
    (store : CardStore) (h : at_most_one_active store) :
    at_most_one_active (apply_creates ops store) := by
  induction ops generalizing store with
  | nil => exact h
  | cons op rest ih =>
    rcases op with ⟨data, now, new_id⟩
    exact ih _ (create_preserves_at_most_one_active store data now new_id h)

theorem find_active_unexpired_le_countP (store : CardStore)
    (iss mem : Nat) (now : Int) :
    (MembershipCard.find_active_unexpired_cards store iss mem now).length ≤
      store.countP (pairActive iss mem) := by
  rw [MembershipCard.find_active_unexpired_cards,
    ← List.countP_eq_length_filter]
  apply List.countP_mono_left
  intro c _ hc
  simp only [decide_eq_true_eq] at hc
  simp only [pairActive, decide_eq_true_eq]
  exact ⟨hc.1, hc.2.1, hc.2.2.1⟩

/-- C1: after any serialized sequence of `create` transactions (the
database serializes concurrent `issue_card` calls at the transaction
boundary), each `(issuer_id, member_id)` pair has at most one card with
status `active` and `expires_at` null or in the future; moreover each
`create` transaction inserts its new card as `active` with
`expires_at = now + 30 days` and `verification_failures = 0`, and every
other card of the pair in the resulting table is superseded
(status `deleted`, hence non-active). -/
theorem create_unique_active_invariant :
    (∀ ops : List CreateCall, ∀ iss mem : Nat, ∀ now : Int,
      (MembershipCard.find_active_unexpired_cards (apply_creates ops [])
        iss mem now).length ≤ 1) ∧
    (∀ store data now new_id,
      ((MembershipCard.create store data now new_id).2.status =
          CardStatus.active ∧
        (MembershipCard.create store data now new_id).2.expires_at =
          some (now + Duration.days 30) ∧
        (MembershipCard.create store data now new_id).2.verification_failures
          = 0 ∧
        (MembershipCard.create store data now new_id).2 ∈
          (MembershipCard.create store data now new_id).1) ∧
      ∀ c ∈ (MembershipCard.create store data now new_id).1,
        c.issuer_id = data.issuer_id → c.member_id = data.member_id →
        c ≠ (MembershipCard.create store data now new_id).2 →
        c.status = CardStatus.deleted) := by
  constructor
  · intro ops iss mem now
    refine le_trans (find_active_unexpired_le_countP _ iss mem now) ?_
    refine apply_creates_at_most_one_active ops [] ?_ iss mem
    intro iss' mem'
    simp [List.countP_nil]
  · intro store data now new_id
    refine ⟨⟨rfl, rfl, rfl, ?_⟩, create_supersedes_pair store data now new_id⟩
    simp [MembershipCard.create]

/-- Closed instantiation of `create_unique_active_invariant`: two `create`
transactions for the pair `(1, 2)`, then the supersession fact for the
concrete first card. -/
theorem create_unique_active_invariant_witness :
    (MembershipCard.find_active_unexpired_cards
      (apply_creates
        [(sample_create_data, 1000, 1), (sample_create_data, 2000, 2)] [])
      1 2 2500).length ≤ 1 ∧
    ({ (MembershipCard.create [] sample_create_data 1000 1).2 with
        status := CardStatus.deleted,
        deleted_at := some 2000 }).status = CardStatus.deleted := by
  constructor
  · exact create_unique_active_invariant.1
      [(sample_create_data, 1000, 1), (sample_create_data, 2000, 2)] 1 2 2500
  · exact (create_unique_active_invariant.2
      (MembershipCard.create [] sample_create_data 1000 1).1
      sample_create_data 2000 2).2
      { (MembershipCard.create [] sample_create_data 1000 1).2 with
        status := CardStatus.deleted, deleted_at := some 2000 }
      (by decide) (by decide) (by decide) (by decide)

/-- C2 counterexample: the claim says a card in status `Expired` is
terminal and no `CardLifecycleStore` operation changes its status; but
`set_status` has no guard on the current status, so it moves the concrete
`expired` card straight back to `active`. -/
theorem set_status_changes_terminal_card :
    expired_card.status = CardStatus.expired ∧
    MembershipCard.set_status [expired_card] 7 CardStatus.active =
      [{ expired_card with status := CardStatus.active }] ∧
    ({ expired_card with status := CardStatus.active }).status ≠
      expired_card.status := by
  refine ⟨rfl, ?_, by decide⟩
  simp [MembershipCard.set_status, expired_card]

/-- C2 (amended): the store operations enforce no terminal-state guard.
`set_status` sets the status of the matching card to the requested value
whatever its current status; `extend_expiration` and
`increment_verification_failure` likewise update the lifecycle fields of
the matching card unconditionally; cards with other ids are untouched. -/
theorem lifecycle_ops_unguarded :
    (∀ store id st, ∀ c ∈ store, c.id = id →
      { c with status := st } ∈ MembershipCard.set_status store id st) ∧
    (∀ store id st, ∀ c ∈ store, c.id ≠ id →
      c ∈ MembershipCard.set_status store id st) ∧
    (∀ store id days now, ∀ c ∈ store, c.id = id →
      { c with expires_at := some (now + Duration.days days),
               last_verified_at := some now,
               verification_failures := 0 } ∈
        MembershipCard.extend_expiration store id days now) ∧
    (∀ store id now, ∀ c ∈ store, c.id = id →
      { c with verification_failures := c.verification_failures + 1,
               last_verified_at := some now } ∈
        (MembershipCard.increment_verification_failure store id now).1) := by
  refine ⟨?_, ?_, ?_, ?_⟩
  · intro store id st c hc hcid
    refine List.mem_map.mpr ⟨c, hc, ?_⟩
    rw [if_pos hcid]
  · intro store id st c hc hcid
    refine List.mem_map.mpr ⟨c, hc, ?_⟩
    rw [if_neg hcid]
  · intro store id days now c hc hcid
    refine List.mem_map.mpr ⟨c, hc, ?_⟩
    rw [if_pos hcid]
  · intro store id now c hc hcid
    refine List.mem_map.mpr ⟨c, hc, ?_⟩
    rw [if_pos hcid]

/-- Closed instantiation of `lifecycle_ops_unguarded` on the concrete
`expired` card. -/
theorem lifecycle_ops_unguarded_witness :
    { expired_card with status := CardStatus.suspended } ∈
      MembershipCard.set_status [expired_card] 7 CardStatus.suspended ∧
    expired_card ∈ MembershipCard.set_status [expired_card] 9
      CardStatus.active ∧
    { expired_card with expires_at := some (3000 + Duration.days 30),
                        last_verified_at := some 3000,
                        verification_failures := 0 } ∈
      MembershipCard.extend_expiration [expired_card] 7 30 3000 ∧
    { expired_card with
        verification_failures := expired_card.verification_failures + 1,
        last_verified_at := some 3000 } ∈
      (MembershipCard.increment_verification_failure [expired_card] 7
        3000).1 := by
  refine ⟨?_, ?_, ?_, ?_⟩
  · exact lifecycle_ops_unguarded.1 [expired_card] 7 CardStatus.suspended
      expired_card (by simp) (by decide)
  · exact lifecycle_ops_unguarded.2.1 [expired_card] 9 CardStatus.active
      expired_card (by simp) (by decide)
  · exact lifecycle_ops_unguarded.2.2.1 [expired_card] 7 30 3000
      expired_card (by simp) (by decide)
  · exact lifecycle_ops_unguarded.2.2.2 [expired_card] 7 3000
      expired_card (by simp) (by decide)

/-- C6: `extend_expiration` sets `expires_at = now + days`,
`last_verified_at = now` and `verification_failures = 0` on the matching
card regardless of its prior failure count (and regardless of status),
changes none of the card's other fields, and leaves every other card
unchanged. -/
theorem extend_expiration_resets (store : CardStore) (id : Nat)
    (days now : Int) :
    (∀ c ∈ store, c.id = id →
      { c with expires_at := some (now + Duration.days days),
               last_verified_at := some now,
               verification_failures := 0 } ∈
        MembershipCard.extend_expiration store id days now) ∧
    (∀ c ∈ store, c.id ≠ id →
      c ∈ MembershipCard.extend_expiration store id days now) ∧
    (∀ c' ∈ MembershipCard.extend_expiration store id days now,
      ∃ c ∈ store,
        (c.id = id ∧
          c' = { c with expires_at := some (now + Duration.days days),
                        last_verified_at := some now,
                        verification_failures := 0 }) ∨
        (c.id ≠ id ∧ c' = c)) := by
  refine ⟨?_, ?_, ?_⟩
  · intro c hc hcid
    refine List.mem_map.mpr ⟨c, hc, ?_⟩
    rw [if_pos hcid]
  · intro c hc hcid
    refine List.mem_map.mpr ⟨c, hc, ?_⟩
    rw [if_neg hcid]
  · intro c' hc'
    rcases List.mem_map.mp hc' with ⟨c, hc, rfl⟩
    by_cases hcid : c.id = id
    · exact ⟨c, hc, Or.inl ⟨hcid, by rw [if_pos hcid]⟩⟩
    · exact ⟨c, hc, Or.inr ⟨hcid, by rw [if_neg hcid]⟩⟩

/-- Closed instantiation of `extend_expiration_resets` on a card whose
failure count is nonzero. -/
theorem extend_expiration_resets_witness :
    { expired_card with expires_at := some (5000 + Duration.days 45),
                        last_verified_at := some 5000,
                        verification_failures := 0 } ∈
      MembershipCard.extend_expiration [expired_card] 7 45 5000 := by
  exact (extend_expiration_resets [expired_card] 7 45 5000).1 expired_card
    (by simp) (by decide)

/-- C5: starting from `verification_failures = 0`, each failed
re-verification increments the count by exactly one and stamps
`last_verified_at = now`; the third consecutive failure yields count 3,
at which point the job calls `set_status(Expired)` (recorded by the
returned flag), leaving the card `expired`; in general the flag is set
exactly when the returned failure count reaches
`FAILURE_THRESHOLD = 3`. -/
theorem failure_escalation :
    (∀ c : MembershipCard, ∀ t1 t2 t3 : Int,
      c.verification_failures = 0 →
      verify_single_card_outcome [c] c.id false t1 =
        some ([{ c with verification_failures := 1,
                        last_verified_at := some t1 }],
          VerificationResult.membershipExpired, false) ∧
      verify_single_card_outcome
          [{ c with verification_failures := 1,
                    last_verified_at := some t1 }] c.id false t2 =
        some ([{ c with verification_failures := 2,
                        last_verified_at := some t2 }],
          VerificationResult.membershipExpired, false) ∧
      verify_single_card_outcome
          [{ c with verification_failures := 2,
                    last_verified_at := some t2 }] c.id false t3 =
        some ([{ c with verification_failures := 3,
                        last_verified_at := some t3,
                        status := CardStatus.expired }],
          VerificationResult.membershipExpired, true)) ∧
    (∀ store id now res,
      verify_single_card_outcome store id false now = some res →
      (res.2.2 = true ↔ ∃ failures,
        (MembershipCard.increment_verification_failure store id now).2 =
          some failures ∧ FAILURE_THRESHOLD ≤ failures)) := by
  constructor
  · intro c t1 t2 t3 hvf
    refine ⟨?_, ?_, ?_⟩
    · simp [verify_single_card_outcome,
        MembershipCard.increment_verification_failure, hvf,
        FAILURE_THRESHOLD]
    · simp [verify_single_card_outcome,
        MembershipCard.increment_verification_failure,
        FAILURE_THRESHOLD]
    · simp [verify_single_card_outcome,
        MembershipCard.increment_verification_failure,
        MembershipCard.set_status, FAILURE_THRESHOLD]
  · intro store id now res h
    simp only [verify_single_card_outcome, if_neg Bool.false_ne_true] at h
    split at h
    · rename_i store' failures heq
      split at h
      · rename_i hge
        injection h with h'
        subst h'
        refine iff_of_true rfl ⟨failures, ?_, hge⟩
        rw [heq]
      · rename_i hge
        injection h with h'
        subst h'
        refine iff_of_false (by simp) ?_
        rintro ⟨f, hf, hfge⟩
        rw [heq] at hf
        simp only [Option.some.injEq] at hf
        subst hf
        exact hge hfge
    · exact absurd h (by simp)

theorem splitOnChar_ne_nil (sep : Char) (l : List Char) :
    splitOnChar sep l ≠ [] := by
  cases l with
  | nil => simp [splitOnChar]
  | cons x xs =>
    rw [splitOnChar]
    cases h : splitOnChar sep xs with
    | nil => simp
    | cons y ys => by_cases hx : x = sep <;> simp [hx]

theorem splitOnChar_not_mem {sep : Char} {l : List Char} (h : sep ∉ l) :
    splitOnChar sep l = [l] := by
  induction l with
  | nil => rfl
  | cons x xs ih =>
    have hx : x ≠ sep := fun hc => h (hc ▸ List.mem_cons_self x xs)
    have hxs : sep ∉ xs := fun hc => h (List.mem_cons_of_mem x hc)
    rw [splitOnChar, ih hxs]
    simp [hx]

theorem splitOnChar_append_sep {sep : Char} {a : List Char}
    (b : List Char) (h : sep ∉ a) :
    splitOnChar sep (a ++ sep :: b) = a :: splitOnChar sep b := by
  induction a with
  | nil =>
    rw [List.nil_append, splitOnChar]
    cases hb : splitOnChar sep b with
    | nil => exact absurd hb (splitOnChar_ne_nil sep b)
    | cons y ys => simp
  | cons x xs ih =>
    have hx : x ≠ sep := fun hc => h (hc ▸ List.mem_cons_self x xs)
    have hxs : sep ∉ xs := fun hc => h (List.mem_cons_of_mem x hc)
    rw [List.cons_append, splitOnChar, ih hxs]
    simp [hx]

theorem splitFirst_not_mem {sep : Char} {l : List Char} (h : sep ∉ l) :
    splitFirst sep l = none := by
  induction l with
  | nil => rfl
  | cons x xs ih =>
    have hx : x ≠ sep := fun hc => h (hc ▸ List.mem_cons_self x xs)
    have hxs : sep ∉ xs := fun hc => h (List.mem_cons_of_mem x hc)
    rw [splitFirst, if_neg hx, ih hxs]

theorem splitFirst_append_sep {sep : Char} {a : List Char}
    (b : List Char) (h : sep ∉ a) :
    splitFirst sep (a ++ sep :: b) = some (a, b) := by
  induction a with
  | nil => simp [splitFirst]
  | cons x xs ih =>
    have hx : x ≠ sep := fun hc => h (hc ▸ List.mem_cons_self x xs)
    have hxs : sep ∉ xs := fun hc => h (List.mem_cons_of_mem x hc)
    rw [List.cons_append, splitFirst, if_neg hx, ih hxs]

theorem not_mem_of_all_alphanumeric {l : List Char}
    (hl : ∀ c ∈ l, char_is_alphanumeric c = true) {d : Char}
    (hd : char_is_alphanumeric d = false) : d ∉ l := by
  intro hmem
  rw [hl d hmem] at hd
  cases hd

theorem form_decode_go_eq_self (fuel : Nat) (l : List Char)
    (hfuel : l.length ≤ fuel)
    (h : ∀ c ∈ l, char_is_alphanumeric c = true) :
    form_decode_go fuel l = l := by
  induction fuel generalizing l with
  | zero =>
    cases l with
    | nil => rfl
    | cons c rest => exact absurd hfuel (by simp)
  | succ fuel ih =>
    cases l with
    | nil => rfl
    | cons c rest =>
      have hc := h c (List.mem_cons_self c rest)
      have hplus : c ≠ '+' := by
        intro hcq; rw [hcq] at hc; cases hc
      have hpct : c ≠ '%' := by
        intro hcq; rw [hcq] at hc; cases hc
      simp only [form_decode_go, if_neg hplus, if_neg hpct,
        ih rest (by simp only [List.length_cons] at hfuel; omega)
          (fun d hd => h d (List.mem_cons_of_mem c hd))]

theorem form_decode_eq_self {l : List Char}
    (h : ∀ c ∈ l, char_is_alphanumeric c = true) : form_decode l = l :=
  form_decode_go_eq_self l.length l le_rfl h

/-- C9: comment-reference extraction behaves as specified: a watch URL
with query parameters `v=V` and `lc=C` yields `(C, some V)` (for
alphanumeric parameter values, as YouTube ids are); a bare id like
`bareid123` yields `(bareid123, none)`; an input that is neither a bare
id nor a parseable URL with an `lc` parameter, like `not a url!!!`,
yields `none`. -/
theorem extract_reference_parsing :
    (∀ V C : List Char,
      (∀ c ∈ V, char_is_alphanumeric c = true) →
      (∀ c ∈ C, char_is_alphanumeric c = true) →
      extract_comment_and_video_id
        ("https://www.youtube.com/watch?v=".data ++ V ++ "&lc=".data ++ C)
        = some (C, some V)) ∧
    extract_comment_and_video_id "bareid123".data =
      some ("bareid123".data, none) ∧
    extract_comment_and_video_id "not a url!!!".data = none := by
  refine ⟨?_, by decide, by decide⟩
  intro V C hV hC
  have hVnm : ∀ d : Char, char_is_alphanumeric d = false → d ∉ V :=
    fun d hd => not_mem_of_all_alphanumeric hV hd
  have hCnm : ∀ d : Char, char_is_alphanumeric d = false → d ∉ C :=
    fun d hd => not_mem_of_all_alphanumeric hC hd
  have hbare : is_bare_comment_id
      ("https://www.youtube.com/watch?v=".data ++ V ++ "&lc=".data ++ C)
      = false := by
    rw [is_bare_comment_id, List.all_eq_false]
    refine ⟨':', ?_, by decide⟩
    exact List.mem_append_left _ (List.mem_append_left _
      (List.mem_append_left _ (by decide)))
  have hassoc : "https://www.youtube.com/watch?v=".data ++ V ++
      "&lc=".data ++ C =
      "https".data ++ ':' :: ("//www.youtube.com/watch".data ++ '?' ::
        ("v=".data ++ (V ++ '&' :: ("lc=".data ++ C)))) := by
    have hlit : "https://www.youtube.com/watch?v=".data =
        "https".data ++ ':' ::
          ("//www.youtube.com/watch".data ++ '?' :: "v=".data) := by decide
    have hlit2 : "&lc=".data = '&' :: "lc=".data := by decide
    rw [hlit, hlit2]
    simp [List.append_assoc]
  have hqhash : splitFirst '#'
      ("v=".data ++ (V ++ '&' :: ("lc=".data ++ C))) = none := by
    apply splitFirst_not_mem
    intro hmem
    rcases List.mem_append.mp hmem with h | h
    · exact absurd h (by decide)
    rcases List.mem_append.mp h with h | h
    · exact hVnm '#' (by decide) h
    rcases List.mem_cons.mp h with h | h
    · cases h
    rcases List.mem_append.mp h with h | h
    · exact absurd h (by decide)
    · exact hCnm '#' (by decide) h
  have hparse : url_parse
      ("https://www.youtube.com/watch?v=".data ++ V ++ "&lc=".data ++ C) =
      some { scheme := "https".data,
             query := some ("v=".data ++ (V ++ '&' :: ("lc=".data ++ C)))
           } := by
    rw [hassoc, url_parse,
      splitFirst_append_sep _ (by decide : (':' : Char) ∉ "https".data)]
    have hqmark : splitFirst '?'
        ("//www.youtube.com/watch".data ++ '?' ::
          ("v=".data ++ (V ++ '&' :: ("lc=".data ++ C)))) =
        some ("//www.youtube.com/watch".data,
          "v=".data ++ (V ++ '&' :: ("lc=".data ++ C))) :=
      splitFirst_append_sep _
        (by decide : ('?' : Char) ∉ "//www.youtube.com/watch".data)
    simp only [hqmark, hqhash, if_pos (by decide : valid_scheme "https".data = true),
      Option.elim]
  have hAmpV : ('&' : Char) ∉ "v=".data ++ V := by
    intro hmem
    rcases List.mem_append.mp hmem with h | h
    · exact absurd h (by decide)
    · exact hVnm '&' (by decide) h
  have hAmpC : ('&' : Char) ∉ "lc=".data ++ C := by
    intro hmem
    rcases List.mem_append.mp hmem with h | h
    · exact absurd h (by decide)
    · exact hCnm '&' (by decide) h
  have hpairs : query_pairs
      ('v' :: '=' :: (V ++ '&' :: 'l' :: 'c' :: '=' :: C)) =
      [(['v'], V), (['l', 'c'], C)] := by
    show query_pairs ("v=".data ++ (V ++ '&' :: ("lc=".data ++ C))) =
      [(['v'], V), (['l', 'c'], C)]
    have h1 : "v=".data ++ (V ++ '&' :: ("lc=".data ++ C)) =
        ("v=".data ++ V) ++ '&' :: ("lc=".data ++ C) := by
      simp [List.append_assoc]
    rw [query_pairs, h1, splitOnChar_append_sep _ hAmpV,
      splitOnChar_not_mem hAmpC]
    have e1 : "v=".data ++ V = ['v'] ++ '=' :: V := rfl
    have e2 : "lc=".data ++ C = ['l', 'c'] ++ '=' :: C := rfl
    simp only [List.map, e1, e2,
      splitFirst_append_sep V (by decide : ('=' : Char) ∉ ['v']),
      splitFirst_append_sep C (by decide : ('=' : Char) ∉ ['l', 'c'])]
    rw [form_decode_eq_self hV, form_decode_eq_self hC,
      (by decide : form_decode ['v'] = ['v']),
      (by decide : form_decode ['l', 'c'] = ['l', 'c'])]
  rw [extract_comment_and_video_id,
    if_neg (by intro hcontra; rw [hbare] at hcontra; cases hcontra), hparse]
  simp [hpairs, List.foldl]

/-- Closed instantiation of `extract_reference_parsing` at the spec's
concrete video and comment ids. -/
theorem extract_reference_parsing_witness :
    extract_comment_and_video_id
      ("https://www.youtube.com/watch?v=".data ++ "dQw4w9WgXcQ".data ++
        "&lc=".data ++ "UgxABC123".data) =
      some ("UgxABC123".data, some "dQw4w9WgXcQ".data) :=
  extract_reference_parsing.1 "dQw4w9WgXcQ".data "UgxABC123".data
    (by decide) (by decide)

/-- C10: any input consisting solely of alphanumerics, hyphens and
underscores — the empty string included — is accepted as a bare comment
id and returned unchanged with no video id; no length or format
validation happens at extraction time. -/
theorem bare_id_accepted_without_validation :
    (∀ s : List Char,
      (∀ c ∈ s,
        (char_is_alphanumeric c || c == '-' || c == '_') = true) →
      extract_comment_and_video_id s = some (s, none)) ∧
    extract_comment_and_video_id [] = some ([], none) ∧
    extract_comment_and_video_id "123456".data =
      some ("123456".data, none) := by
  refine ⟨?_, by decide, by decide⟩
  intro s hs
  rw [extract_comment_and_video_id,
    if_pos (by rw [is_bare_comment_id]; exact List.all_eq_true.mpr hs)]

/-- Closed instantiation of `bare_id_accepted_without_validation` on a
bare id exercising all three accepted character classes. -/
theorem bare_id_accepted_without_validation_witness :
    extract_comment_and_video_id "Ugx-comment_19".data =
      some ("Ugx-comment_19".data, none) :=
  bare_id_accepted_without_validation.1 "Ugx-comment_19".data (by decide)

/-- Closed instantiation of `failure_escalation` on the concrete fresh
card. -/
theorem failure_escalation_witness :
    verify_single_card_outcome [fresh_card] fresh_card.id false 10 =
      some ([{ fresh_card with verification_failures := 1,
                               last_verified_at := some 10 }],
        VerificationResult.membershipExpired, false) ∧
    ((([{ fresh_card with verification_failures := 1,
                          last_verified_at := some 10 }],
        VerificationResult.membershipExpired, false) :
        CardStore × VerificationResult × Bool).2.2 = true ↔ ∃ failures,
      (MembershipCard.increment_verification_failure [fresh_card]
        fresh_card.id 10).2 = some failures ∧
      FAILURE_THRESHOLD ≤ failures) := by
  constructor
  · exact (failure_escalation.1 fresh_card 10 20 30 rfl).1
  · exact failure_escalation.2 [fresh_card] fresh_card.id 10 _
      ((failure_escalation.1 fresh_card 10 20 30 rfl).1)

/-- C4: with an issuer API config present, a failing wallet health probe
(any transport failure or any 5xx status) makes `issue_card` return
`WalletServiceUnavailable` with the database untouched, the probe having
run exactly once and the membership proof checker never invoked; and
every 5xx probe status is such a failure. -/
theorem wallet_down_fail_fast :
    (∀ status : Nat, 500 ≤ status → status ≤ 599 →
      check_wallet_health (Except.ok status) =
        Except.error (WalletQrError.apiError "Wallet API unavailable")) ∧
    (∀ env db base token request now nmid ncid e,
      check_wallet_health env.health_response = Except.error e →
      issue_card env db (some (base, token)) request now nmid ncid =
        (Except.error CardIssuanceError.walletServiceUnavailable, db,
          ⟨1, 0⟩)) := by
  constructor
  · intro status h1 h2
    rw [check_wallet_health, if_pos ⟨h1, h2⟩]
  · intro env db base token request now nmid ncid e h
    rw [issue_card, h]

/-- Closed instantiation of `wallet_down_fail_fast` at a concrete 503
probe response. -/
theorem wallet_down_fail_fast_witness :
    check_wallet_health (Except.ok 503) =
      Except.error (WalletQrError.apiError "Wallet API unavailable") ∧
    issue_card wallet_down_env ⟨[], [], []⟩ (some ("https://api", "tok"))
      sample_request 1000 5 6 =
      (Except.error CardIssuanceError.walletServiceUnavailable,
        ⟨[], [], []⟩, ⟨1, 0⟩) := by
  refine ⟨wallet_down_fail_fast.1 503 (by decide) (by decide), ?_⟩
  exact wallet_down_fail_fast.2 wallet_down_env ⟨[], [], []⟩ "https://api"
    "tok" sample_request 1000 5 6
    (WalletQrError.apiError "Wallet API unavailable") rfl

/-- C3 is violated by the code: both persistence sites store the raw
UTF-8 plaintext of the OAuth tokens. The session created by the OAuth
callback carries `utf8Encode token` in its `access_token` column; at the
concrete token `ya29.example` the stored bytes are its 12 plaintext
bytes, strictly shorter than any possible `encrypt` output (which is at
least 28 bytes: nonce plus tag); and every row touched by the
re-verification refresh likewise receives plain `utf8Encode` bytes. -/
theorem oauth_tokens_persisted_plaintext :
    (∀ sessions member_id token rtoken scope texp now nid,
      (youtube_callback_store_session sessions member_id token rtoken
        scope texp now nid).2.access_token = utf8Encode token) ∧
    ((youtube_callback_store_session [] 1 "ya29.example".data none "s"
        999 100 1).2.access_token =
      [121, 97, 50, 57, 46, 101, 120, 97, 109, 112, 108, 101] ∧
     (∀ n, ((youtube_callback_store_session [] 1 "ya29.example".data none
        "s" 999 100 1).2.access_token).length < encrypted_len n)) ∧
    (∀ sessions id token rtoken texp now, ∀ s ∈ sessions, s.id = id →
      { s with access_token := utf8Encode token
               refresh_token := rtoken.map utf8Encode
               token_expires_at := texp
               last_used_at := now } ∈
        reverification_update_session_tokens sessions id token rtoken
          texp now) := by
  refine ⟨fun _ _ _ _ _ _ _ _ => rfl, ⟨by decide, ?_⟩, ?_⟩
  · intro n
    show 12 < encrypted_len n
    rw [encrypted_len, NONCE_LEN]
    omega
  · intro sessions id token rtoken texp now s hs hsid
    refine List.mem_map.mpr ⟨s, hs, ?_⟩
    rw [if_pos hsid]

/-- Closed instantiation of `oauth_tokens_persisted_plaintext`: the
refresh path overwrites a concrete stored session with plaintext
bytes. -/
theorem oauth_tokens_persisted_plaintext_witness :
    { (youtube_callback_store_session [] 1 "ya29.example".data none "s"
        999 100 1).2 with
      access_token := utf8Encode "ya29.next".data
      refresh_token := none
      token_expires_at := 2000
      last_used_at := 1500 } ∈
      reverification_update_session_tokens
        [(youtube_callback_store_session [] 1 "ya29.example".data none "s"
          999 100 1).2] 1 "ya29.next".data none 2000 1500 := by
  exact oauth_tokens_persisted_plaintext.2.2
    [(youtube_callback_store_session [] 1 "ya29.example".data none "s"
      999 100 1).2] 1 "ya29.next".data none 2000 1500
    (youtube_callback_store_session [] 1 "ya29.example".data none "s"
      999 100 1).2 (by simp) (by decide)

theorem toBytesBE_lt (numBytes n : Nat) : ∀ b ∈ toBytesBE numBytes n,
    b < 256 := by
  intro b hb
  rcases List.mem_map.mp hb with ⟨i, _, rfl⟩
  exact Nat.mod_lt _ (by norm_num)

theorem sha256_bytes_lt (msg : List Nat) : ∀ b ∈ sha256 msg, b < 256 := by
  intro b hb
  rw [sha256] at hb
  rcases List.mem_flatten.mp hb with ⟨l, hl, hbl⟩
  rcases List.mem_map.mp hl with ⟨w, _, rfl⟩
  exact toBytesBE_lt 4 w b hbl

theorem hmacSha256_bytes_lt (key msg : List Nat) :
    ∀ b ∈ hmacSha256 key msg, b < 256 := by
  intro b hb
  simp only [hmacSha256] at hb
  exact sha256_bytes_lt _ b hb

theorem hexDigitVal_hexDigitChar (n : Nat) (h : n < 16) :
    hexDigitVal (hexDigitChar n) = some n := by
  interval_cases n <;> decide

theorem hexDecode_hexEncode (bs : List Nat) (h : ∀ b ∈ bs, b < 256) :
    hexDecode (hexEncode bs) = some bs := by
  induction bs with
  | nil => rfl
  | cons b rest ih =>
    have hb := h b (List.mem_cons_self b rest)
    have hdiv : b / 16 < 16 := by omega
    have hmod : b % 16 < 16 := Nat.mod_lt _ (by norm_num)
    have henc : hexEncode (b :: rest) =
        hexDigitChar (b / 16) :: hexDigitChar (b % 16) :: hexEncode rest := by
      simp [hexEncode]
    rw [henc, hexDecode, hexDigitVal_hexDigitChar _ hdiv,
      hexDigitVal_hexDigitChar _ hmod,
      ih (fun d hd => h d (List.mem_cons_of_mem b hd))]
    simp [Nat.div_add_mod]

/-- C7 (amended): signing is deterministic and round-trips — for every
payload and key, `verify(payload, sign(payload, key), key) = Ok(true)` —
and `verify` accepts exactly the hex encodings of the correct HMAC: it
returns `Ok(true)` iff the signature hex-decodes (case-insensitively) to
the HMAC-SHA256 of the payload under the key, returning `Ok(false)` for
any other decodable signature and `InvalidFormat` for non-hex input. The
original claim's "any single-byte mutation of the signature yields false"
fails: changing a hex letter's case still verifies (see the
counterexample), and a mutation to a non-hex character yields an error,
not `false`. -/
theorem sign_verify_roundtrip :
    (∀ payload key,
      verify payload (sign payload key) key = Except.ok true) ∧
    (∀ payload key, sign payload key = sign payload key) ∧
    (∀ payload s key,
      verify payload s key = Except.ok true ↔
        hexDecode s = some (hmacSha256 key (utf8Encode payload))) := by
  refine ⟨?_, fun _ _ => rfl, ?_⟩
  · intro payload key
    rw [verify, sign,
      hexDecode_hexEncode _ (hmacSha256_bytes_lt key (utf8Encode payload))]
    simp
  · intro payload s key
    rw [verify]
    cases h : hexDecode s with
    | none => simp
    | some bs => simp

/-- C7 counterexample: the claim that any single-byte mutation of the
signature makes `verify` return false fails on the code. For payload `a`
and key `k` (byte 107), the signature is the lowercase hex string below;
uppercasing its third character (`d` to `D`) is a single-byte mutation —
the two strings have equal length and differ in exactly one position —
yet `verify` still returns `Ok(true)`, because `hex::decode` accepts both
letter cases. A mutation to a non-hex character (`!`) yields the
`InvalidFormat` error rather than `false`. -/
theorem signature_case_mutation_verifies :
    sign "a".data [107] =
      "78da91511e675587f5b9df78bedebaf5560da2abb88162ee875dcdf744951d9e".data
    ∧
    "78Da91511e675587f5b9df78bedebaf5560da2abb88162ee875dcdf744951d9e".data
      ≠
    "78da91511e675587f5b9df78bedebaf5560da2abb88162ee875dcdf744951d9e".data
    ∧
    ("78Da91511e675587f5b9df78bedebaf5560da2abb88162ee875dcdf744951d9e".data).length =
    ("78da91511e675587f5b9df78bedebaf5560da2abb88162ee875dcdf744951d9e".data).length
    ∧
    (List.zip
      "78da91511e675587f5b9df78bedebaf5560da2abb88162ee875dcdf744951d9e".data
      "78Da91511e675587f5b9df78bedebaf5560da2abb88162ee875dcdf744951d9e".data).countP
      (fun p => decide (p.1 ≠ p.2)) = 1
    ∧
    verify "a".data
      "78Da91511e675587f5b9df78bedebaf5560da2abb88162ee875dcdf744951d9e".data
      [107] = Except.ok true
    ∧
    verify "a".data
      "78da91511e675587f5b9df78bedebaf5560da2abb88162ee875dcdf744951d9!".data
      [107] = Except.error SignatureError.invalidFormat := by
  refine ⟨by decide, by decide, by decide, by decide, by decide, by decide⟩

theorem splitOnChar_cons_sep (sep : Char) (t : List Char) :
    splitOnChar sep (sep :: t) = [] :: splitOnChar sep t := by
  rw [splitOnChar]
  cases h : splitOnChar sep t with
  | nil => exact absurd h (splitOnChar_ne_nil sep t)
  | cons y ys => simp

theorem splitOnChar_length_ge_two {sep : Char} {l : List Char}
    (h : sep ∈ l) : 2 ≤ (splitOnChar sep l).length := by
  induction l with
  | nil => cases h
  | cons x t ih =>
    by_cases hx : x = sep
    · rw [hx, splitOnChar_cons_sep]
      cases ht : splitOnChar sep t with
      | nil => exact absurd ht (splitOnChar_ne_nil sep t)
      | cons y ys => simp
    · have hmem : sep ∈ t := by
        rcases List.mem_cons.mp h with h1 | h1
        · exact absurd h1.symm hx
        · exact h1
      have ih' := ih hmem
      rw [splitOnChar]
      cases ht : splitOnChar sep t with
      | nil => exact absurd ht (splitOnChar_ne_nil sep t)
      | cons y ys =>
        rw [ht] at ih'
        simp only [List.length_cons] at ih'
        simp [hx]
        omega

theorem splitOnChar_getLastD {sep : Char} (a b : List Char)
    (hb : sep ∉ b) :
    (splitOnChar sep (a ++ sep :: b)).getLastD [] = b := by
  induction a with
  | nil =>
    rw [List.nil_append, splitOnChar_cons_sep, splitOnChar_not_mem hb]
    rfl
  | cons x a' ih =>
    rw [List.cons_append]
    by_cases hx : x = sep
    · rw [hx, splitOnChar_cons_sep]
      cases h : splitOnChar sep (a' ++ sep :: b) with
      | nil => exact absurd h (splitOnChar_ne_nil _ _)
      | cons y ys =>
        rw [h] at ih
        simpa using ih
    · rw [splitOnChar]
      cases h : splitOnChar sep (a' ++ sep :: b) with
      | nil => exact absurd h (splitOnChar_ne_nil _ _)
      | cons y ys =>
        show (if x = sep then [] :: y :: ys
          else (x :: y) :: ys).getLastD [] = b
        rw [if_neg hx]
        cases ys with
        | nil =>
          have hlen := @splitOnChar_length_ge_two sep (a' ++ sep :: b)
            (List.mem_append_right _ (List.mem_cons_self sep b))
          rw [h] at hlen
          simp at hlen
        | cons z zs =>
          rw [h] at ih
          rw [List.getLastD_cons, List.getLastD_cons] at ih ⊢
          exact ih

/-- C8: for every well-formed three-part JWT whose payload base64url-
decodes to an (ASCII) JSON object carrying
`jti = <host>/<uuid>` — the uuid being the nonempty final path segment —
`extract_cid_from_jwt` returns `<uuid>`; and for every token that does
not split into exactly 3 dot-separated parts it fails with the
`InvalidJwt` "does not have 3 parts" error. -/
theorem extract_cid_spec :
    (∀ jwt : List Char, (splitOnChar '.' jwt).length ≠ 3 →
      extract_cid_from_jwt jwt =
        Except.error (WalletQrError.invalidJwt
          "JWT token does not have 3 parts")) ∧
    (∀ header payload sig bytes ascii host uuid,
      '.' ∉ header → '.' ∉ payload → '.' ∉ sig →
      base64UrlDecode payload = some bytes →
      bytesToAscii bytes = some ascii →
      parse_json_jti ascii = some (host ++ '/' :: uuid) →
      '/' ∉ uuid → uuid ≠ [] →
      extract_cid_from_jwt (header ++ '.' :: (payload ++ '.' :: sig)) =
        Except.ok uuid) := by
  constructor
  · intro jwt hlen
    rw [extract_cid_from_jwt]
    rw [if_pos hlen]
  · intro header payload sig bytes ascii host uuid hh hp hs hb64 hascii
      hjti hslash hne
    have hsplit : splitOnChar '.' (header ++ '.' :: (payload ++ '.' :: sig))
        = [header, payload, sig] := by
      rw [splitOnChar_append_sep _ hh, splitOnChar_append_sep _ hp,
        splitOnChar_not_mem hs]
    rw [extract_cid_from_jwt, hsplit]
    rw [if_neg (by simp)]
    simp only [List.getD, List.get?_cons_succ, List.get?_cons_zero,
      Option.getD_some, hb64, hascii, hjti,
      splitOnChar_getLastD host uuid hslash]
    rw [if_neg (by simp [hne])]

/-- Closed instantiation of `extract_cid_spec` at a concrete credential
JWT (payload from the source's own doc example) and at a malformed
token. -/
theorem extract_cid_spec_witness :
    extract_cid_from_jwt ("header".data ++ '.' ::
      ("eyJqdGkiOiJodHRwczovL2lzc3Vlci12Yy53YWxsZXQuZ292LnR3L2FwaS9jcmVkZW50aWFsL2ExNjE4N2U5LTc1NWUtNDhjYS1hOWMwLTYyMmY3NmZlMTM2MCJ9".data
      ++ '.' :: "sig".data)) =
      Except.ok "a16187e9-755e-48ca-a9c0-622f76fe1360".data ∧
    extract_cid_from_jwt "not-a-jwt".data =
      Except.error (WalletQrError.invalidJwt
        "JWT token does not have 3 parts") := by
  constructor
  · exact extract_cid_spec.2 "header".data
      "eyJqdGkiOiJodHRwczovL2lzc3Vlci12Yy53YWxsZXQuZ292LnR3L2FwaS9jcmVkZW50aWFsL2ExNjE4N2U5LTc1NWUtNDhjYS1hOWMwLTYyMmY3NmZlMTM2MCJ9".data
      "sig".data
      (("\x7b\"jti\":\"https://issuer-vc.wallet.gov.tw/api/credential/a16187e9-755e-48ca-a9c0-622f76fe1360\"\x7d".data).map
        Char.toNat)
      "\x7b\"jti\":\"https://issuer-vc.wallet.gov.tw/api/credential/a16187e9-755e-48ca-a9c0-622f76fe1360\"\x7d".data
      "https://issuer-vc.wallet.gov.tw/api/credential".data
      "a16187e9-755e-48ca-a9c0-622f76fe1360".data
      (by decide) (by decide) (by decide) (by decide) (by decide)
      (by decide) (by decide) (by decide)
  · exact extract_cid_spec.1 "not-a-jwt".data (by decide)
